import Mathlib

/-!
# Phoebe path tracer: camera, configuration and render loop

A shallow embedding of `camera.go`, `config.go`, `intersect.go` and
`path_tracer.go`.  Go's `float64` scalars are an arbitrary linearly ordered
field `α` (so every definition runs on `ℚ` and the camera theorems can be read
over `ℝ`), and `math.Sqrt` is passed in as `sqrt`.  Go's `int` is `Int`.  A
constructor that can fail returns `Except ValidationError`; none of the
sources catches such a failure, so it ends the construction it occurs in.
-/

namespace Phoebe

/-! ## Vectors and rays -/

/-- Modelled from the spec: the construction-time validation errors (absent
from the sources): a degenerate (zero) vector, and bounds with `min > max`. -/
inductive ValidationError where
  | DegenerateVectorError
  | InvalidBoundsError
  deriving DecidableEq, Repr

/-- Modelled from the spec: the type `Vec3` (absent from the sources), three
scalar components `(x, y, z)`, an immutable value type. -/
structure Vec3 (α : Type) where
  x : α
  y : α
  z : α
  deriving DecidableEq, Repr

/-- Modelled from the spec: the constructor `NewVec3` (absent from the
sources), which builds the vector with the three given components. -/
def NewVec3 {α : Type} (x y z : α) : Vec3 α := ⟨x, y, z⟩

namespace Vec3

variable {α : Type} [LinearOrderedField α]

/-- Modelled from the spec: `Vec3` addition (absent from the sources). -/
def Add (v w : Vec3 α) : Vec3 α := ⟨v.x + w.x, v.y + w.y, v.z + w.z⟩

/-- Modelled from the spec: `Vec3` subtraction (absent from the sources). -/
def Sub (v w : Vec3 α) : Vec3 α := ⟨v.x - w.x, v.y - w.y, v.z - w.z⟩

/-- Modelled from the spec: `Vec3` scalar scale (absent from the sources). -/
def Scale (k : α) (v : Vec3 α) : Vec3 α := ⟨k * v.x, k * v.y, k * v.z⟩

/-- Modelled from the spec: `Vec3` dot product (absent from the sources). -/
def Dot (v w : Vec3 α) : α := v.x * w.x + v.y * w.y + v.z * w.z

/-- Modelled from the spec: `Vec3.Cross` (absent from the sources), the cross
product of two vectors. -/
def Cross (v w : Vec3 α) : Vec3 α :=
  ⟨v.y * w.z - v.z * w.y, v.z * w.x - v.x * w.z, v.x * w.y - v.y * w.x⟩

/-- Modelled from the spec: the length of a vector (absent from the sources),
the square root of its dot product with itself. -/
def Length (sqrt : α → α) (v : Vec3 α) : α := sqrt (v.Dot v)

/-- Modelled from the spec: `Vec3.Normalize` (absent from the sources).  A zero
vector passed to it is an error condition, not silently tolerated: it fails
with a `DegenerateVectorError`.  For any other vector it returns each
component divided by the length. -/
def Normalize (sqrt : α → α) (v : Vec3 α) : Except ValidationError (Vec3 α) :=
  if v = NewVec3 0 0 0 then
    .error .DegenerateVectorError
  else
    .ok ⟨v.x / v.Length sqrt, v.y / v.Length sqrt, v.z / v.Length sqrt⟩

end Vec3

/-- Modelled from the spec: the type `Ray` (absent from the sources), an
origin and a direction. -/
structure Ray (α : Type) where
  origin : Vec3 α
  direction : Vec3 α
  deriving DecidableEq, Repr

/-- Modelled from the spec: the constructor `NewRay` (absent from the
sources). -/
def NewRay {α : Type} (origin direction : Vec3 α) : Ray α := ⟨origin, direction⟩

/-- Modelled from the spec: `Ray.At` (absent from the sources),
`origin + t·direction`. -/
def Ray.At {α : Type} [LinearOrderedField α] (r : Ray α) (t : α) : Vec3 α :=
  r.origin.Add (Vec3.Scale t r.direction)

/-! ## config.go -/

/-- The constant `epsilon = 1e-8` of config.go. -/
def epsilon {α : Type} [LinearOrderedField α] : α := 1 / 100000000

/-- A Go array `[3]float64`. -/
structure Float3 (α : Type) where
  e0 : α
  e1 : α
  e2 : α
  deriving DecidableEq, Repr

/-- The struct `Config` of config.go. -/
structure Config (α : Type) where
  NumCPU : Int
  FileName : String
  Seed : Int
  Width : Int
  Height : Int
  SceneBoundMin : Float3 α
  SceneBoundMax : Float3 α
  CameraEye : Float3 α
  CameraCenter : Float3 α
  CameraUp : Float3 α
  PixelSampleSize : Int
  IntersectSampleSize : Int
  TraceDepth : Int
  deriving DecidableEq, Repr

/-- `NewDefaultConfig` of config.go.  The two values it reads from its
environment, `runtime.NumCPU()` and `time.Now().UnixNano()`, are arguments. -/
def NewDefaultConfig {α : Type} [LinearOrderedField α] (numCPU unixNano : Int) : Config α :=
  { NumCPU := numCPU
    FileName := "phoebe_" ++ toString unixNano ++ ".png"
    Seed := 0
    Width := 800
    Height := 800
    SceneBoundMin := ⟨-5, -5, -5⟩
    SceneBoundMax := ⟨5, 5, 5⟩
    CameraEye := ⟨0, 0, 0⟩
    CameraCenter := ⟨0, 0, -1⟩
    CameraUp := ⟨0, 1, 0⟩
    PixelSampleSize := 9
    IntersectSampleSize := 4
    TraceDepth := 3 }

/-- Modelled from the spec: the type `BoundBox` (absent from the sources), an
axis-aligned box given by its `min` and `max` corners. -/
structure BoundBox (α : Type) where
  min : Vec3 α
  max : Vec3 α
  deriving DecidableEq, Repr

/-- Modelled from the spec: the constructor `NewBoundBox` (absent from the
sources).  `min ≤ max` component-wise is an invariant of the box; bounds where
`min > max` on some axis are a validation error at construction. -/
def NewBoundBox {α : Type} [LinearOrderedField α] (min max : Vec3 α) :
    Except ValidationError (BoundBox α) :=
  if min.x ≤ max.x ∧ min.y ≤ max.y ∧ min.z ≤ max.z then
    .ok ⟨min, max⟩
  else
    .error .InvalidBoundsError

/-- `Config.SceneBound` of config.go. -/
def Config.SceneBound {α : Type} [LinearOrderedField α] (c : Config α) :
    Except ValidationError (BoundBox α) :=
  let boundMin := NewVec3 c.SceneBoundMin.e0 c.SceneBoundMin.e1 c.SceneBoundMin.e2
  let boundMax := NewVec3 c.SceneBoundMax.e0 c.SceneBoundMax.e1 c.SceneBoundMax.e2
  NewBoundBox boundMin boundMax

/-- `Config.EyeCenterUp` of config.go. -/
def Config.EyeCenterUp {α : Type} (c : Config α) : Vec3 α × Vec3 α × Vec3 α :=
  let eye := NewVec3 c.CameraEye.e0 c.CameraEye.e1 c.CameraEye.e2
  let center := NewVec3 c.CameraCenter.e0 c.CameraCenter.e1 c.CameraCenter.e2
  let up := NewVec3 c.CameraUp.e0 c.CameraUp.e1 c.CameraUp.e2
  (eye, center, up)

/-! ## camera.go -/

/-- The struct `Camera` of camera.go. -/
structure Camera (α : Type) where
  position : Vec3 α
  tangent : Vec3 α
  normal : Vec3 α
  binormal : Vec3 α
  aspectRatio : α
  normHeight : α
  deriving DecidableEq, Repr

section CameraOps

variable {α : Type} [LinearOrderedField α]

/-- `NewCamera` of camera.go.  It has no check of its own; a failure of
`Normalize` ends the construction. -/
def NewCamera (sqrt : α → α) (position tangent normal : Vec3 α) :
    Except ValidationError (Camera α) := do
  let binormal ← (tangent.Cross normal).Normalize sqrt
  pure
    { position := position
      tangent := tangent
      normal := normal
      binormal := binormal
      aspectRatio := 1
      normHeight := 1 }

/-- `Camera.Position` of camera.go. -/
def Camera.Position (c : Camera α) : Vec3 α := c.position

/-- `Camera.BasisVecs` of camera.go. -/
def Camera.BasisVecs (c : Camera α) : Vec3 α × Vec3 α × Vec3 α :=
  (c.tangent, c.normal, c.binormal)

/-- `Camera.RayThrough` of camera.go, with the two parameters `i`, `j` it
declares. -/
def Camera.RayThrough (_c : Camera α) (_i _j : Int) : Ray α :=
  NewRay (NewVec3 0 0 0) (NewVec3 0 0 0)

end CameraOps

/-! ## intersect.go and the scene -/

/-- Modelled from the spec: the interface `Geometry` (absent from the
sources): a ray-intersection test giving the ray parameter `t` of the hit or
no hit, and the surface normal at a position. -/
structure Geometry (α : Type) where
  Intersect : Ray α → Option α
  NormalAt : Vec3 α → Vec3 α

/-- The struct `Intersect` of intersect.go. -/
structure Intersect (α : Type) where
  ray : Ray α
  geometry : Geometry α
  position : Vec3 α
  t : α

section SceneOps

variable {α : Type} [LinearOrderedField α]

/-- `NewIntersect` of intersect.go. -/
def NewIntersect (ray : Ray α) (geometry : Geometry α) (t : α) : Intersect α :=
  { ray := ray
    geometry := geometry
    position := ray.At t
    t := t }

/-- `Intersect.Geometry` of intersect.go. -/
def Intersect.Geometry (i : Intersect α) : Geometry α := i.geometry

/-- `Intersect.T` of intersect.go. -/
def Intersect.T (i : Intersect α) : α := i.t

/-- Modelled from the spec: the type `Scene` (absent from the sources), which
owns the bounding box and the ordered collection of geometries. -/
structure Scene (α : Type) where
  bound : BoundBox α
  objects : List (Geometry α)

/-- Modelled from the spec: the constructor `NewScene` (absent from the
sources): a scene with the given bound and no object yet. -/
def NewScene (bound : BoundBox α) : Scene α := ⟨bound, []⟩

/-- Modelled from the spec: `Scene.AddObject` (absent from the sources), which
appends to the owned collection. -/
def Scene.AddObject (s : Scene α) (g : Geometry α) : Scene α :=
  { s with objects := s.objects ++ [g] }

/-- One step of the nearest-hit search: the candidate of geometry `g` replaces
the best hit so far only when it is valid (`t > epsilon`) and nearer by more
than `epsilon`, so that the first in insertion order wins a tie. -/
def Scene.nearer (ray : Ray α) (best : Option (Intersect α)) (g : Geometry α) :
    Option (Intersect α) :=
  match g.Intersect ray with
  | none => best
  | some t =>
    if epsilon < t then
      match best with
      | none => some (NewIntersect ray g t)
      | some b => if t + epsilon < b.t then some (NewIntersect ray g t) else some b
    else best

/-- Modelled from the spec: `Scene.Intersect` (absent from the sources):
iterate all owned geometries and return the hit with the smallest valid `t`,
the first in insertion order on a tie, or no hit.  The bounding-box pre-test
is a short-circuit that never changes the result and is left out. -/
def Scene.Intersect (s : Scene α) (ray : Ray α) : Option (Intersect α) :=
  s.objects.foldl (Scene.nearer ray) none

end SceneOps

/-! ## The output sink -/

/-- Modelled from the spec: the type `Buffer` (absent from the sources), the
output sink with `Dims` and `SetIntensityAt`.  It is kept as its dimensions
and the record of the `SetIntensityAt` calls it received, oldest first. -/
structure Buffer (α : Type) where
  width : Int
  height : Int
  writes : List (Int × Int × Vec3 α)
  deriving DecidableEq, Repr

/-- Modelled from the spec: the constructor `NewBuffer` (absent from the
sources): a buffer of the given dimensions that has received no write. -/
def NewBuffer {α : Type} (width height : Int) : Buffer α := ⟨width, height, []⟩

/-- Modelled from the spec: `Buffer.Dims` (absent from the sources). -/
def Buffer.Dims {α : Type} (b : Buffer α) : Int × Int := (b.width, b.height)

/-- Modelled from the spec: `Buffer.SetIntensityAt` (absent from the sources);
the call is appended to the record. -/
def Buffer.SetIntensityAt {α : Type} (b : Buffer α) (x y : Int) (rgb : Vec3 α) : Buffer α :=
  { b with writes := b.writes ++ [(x, y, rgb)] }

/-- The number of recorded `SetIntensityAt` calls at pixel `(x, y)`. -/
def Buffer.callsAt {α : Type} (b : Buffer α) (x y : Int) : Nat :=
  b.writes.countP (fun w => decide (w.1 = x ∧ w.2.1 = y))

/-- The colour of pixel `(x, y)` in the finished image: that of the last
`SetIntensityAt` call at `(x, y)`, if any. -/
def Buffer.colorAt {α : Type} (b : Buffer α) (x y : Int) : Option (Vec3 α) :=
  (b.writes.reverse.find? (fun w => decide (w.1 = x ∧ w.2.1 = y))).map (fun w => w.2.2)

/-! ## path_tracer.go -/

/-- The struct `PathTracer` of path_tracer.go. -/
structure PathTracer (α : Type) where
  Config : Config α
  Scene : Scene α
  Camera : Camera α

/-- A Go loop `for i := lo; i < hi; i++ { body }` over a state `σ`. -/
def forLoop {σ : Type} (i hi : Int) (body : Int → σ → σ) (s : σ) : σ :=
  if i < hi then forLoop (i + 1) hi body (body i s) else s
termination_by (hi - i).toNat
decreasing_by omega

section Tracer

variable {α : Type} [LinearOrderedField α]

/-- `NewPathTracer` of path_tracer.go.  It has no check of its own; a failure
of `SceneBound` or of `NewCamera` ends the construction. -/
def NewPathTracer (sqrt : α → α) (config : Config α) :
    Except ValidationError (PathTracer α) := do
  let sceneBound ← config.SceneBound
  let scene := NewScene sceneBound
  let (eye, center, up) := config.EyeCenterUp
  let camera ← NewCamera sqrt eye center up
  pure
    { Config := config
      Scene := scene
      Camera := camera }

/-- `PathTracer.TraceAt` of path_tracer.go.  Beside the colour it returns the
rays on which it called `Scene.Intersect`, in call order.  The call site hands
`RayThrough` two more arguments (`Config.Width`, `Config.Height`) than the
method declares; the declared two are passed. -/
def PathTracer.TraceAt (p : PathTracer α) (x y : Int) : Vec3 α × List (Ray α) :=
  let r := p.Camera.RayThrough x y
  let isect := p.Scene.Intersect r
  let queried := [r]
  if isect.isSome then
    (NewVec3 0 0 0, queried)
  else
    (NewVec3 0 0 0, queried)

/-- `PathTracer.Render` of path_tracer.go. -/
def PathTracer.Render (p : PathTracer α) (b : Buffer α) : Buffer α :=
  let (width, height) := b.Dims
  forLoop 0 width (fun x b =>
    forLoop 0 height (fun y b =>
      let rgb := (p.TraceAt x y).1
      b.SetIntensityAt x y rgb) b) b

end Tracer

/-! ## Auxiliary definitions for the statements -/

/-- The pixels of one column `x`, top to bottom, all with colour `c`. -/
def column {α : Type} (h : Int) (c : Vec3 α) (x : Int) : List (Int × Int × Vec3 α) :=
  (List.range h.toNat).map (fun (j : Nat) => (x, (j : Int), c))

/-- All the pixels of a `w` by `h` image in the order `Render` visits them. -/
def grid {α : Type} (w h : Int) (c : Vec3 α) : List (Int × Int × Vec3 α) :=
  (List.range w.toNat).flatMap (fun (i : Nat) => column h c (i : Int))

/-! ### Concrete instances -/

/-- The default configuration with `TraceDepth` set to 0. -/
def depthZeroConfig {α : Type} [LinearOrderedField α] : Config α :=
  { NewDefaultConfig 1 0 with TraceDepth := 0 }

/-- A geometry that every ray hits at `t = 1`. -/
def alwaysHit {α : Type} [LinearOrderedField α] : Geometry α :=
  ⟨fun _ => some 1, fun v => v⟩

/-- The camera at the origin that looks down `-z` with `y` up, as `NewCamera`
builds it from the default eye, center and up. -/
def lookDownZ {α : Type} [LinearOrderedField α] : Camera α :=
  { position := NewVec3 0 0 0
    tangent := NewVec3 0 0 (-1)
    normal := NewVec3 0 1 0
    binormal := NewVec3 1 0 0
    aspectRatio := 1
    normHeight := 1 }

/-- The scene of the default configuration, which owns no object. -/
def defaultScene {α : Type} [LinearOrderedField α] : Scene α :=
  NewScene ⟨NewVec3 (-5) (-5) (-5), NewVec3 5 5 5⟩

/-- The tracer `NewPathTracer` builds from the default configuration. -/
def defaultTracer {α : Type} [LinearOrderedField α] : PathTracer α :=
  ⟨NewDefaultConfig 4 0, defaultScene, lookDownZ⟩

/-- The scene of the default configuration with `alwaysHit` added. -/
def hitScene {α : Type} [LinearOrderedField α] : Scene α :=
  defaultScene.AddObject alwaysHit

/-- The default configuration with the eye moved to `(1, 0, 0)`. -/
def eyeOffConfig {α : Type} [LinearOrderedField α] : Config α :=
  { NewDefaultConfig 1 0 with CameraEye := ⟨1, 0, 0⟩ }

/-- The default configuration with eye `(1, 0, 0)` and center `(1, 1, 0)`: its
up vector `(0, 1, 0)` is along the look direction center − eye. -/
def upAlongLookConfig {α : Type} [LinearOrderedField α] : Config α :=
  { NewDefaultConfig 1 0 with CameraEye := ⟨1, 0, 0⟩, CameraCenter := ⟨1, 1, 0⟩ }

/-! ## The render loop -/

section RenderLemmas

variable {α : Type}

/-- The colour `TraceAt` returns is the black vector. -/
theorem traceAt_fst [LinearOrderedField α] (p : PathTracer α) (x y : Int) :
    (p.TraceAt x y).1 = NewVec3 0 0 0 := by
  simp [PathTracer.TraceAt]

/-- The rays `TraceAt` queries: the camera ray, once. -/
theorem traceAt_snd [LinearOrderedField α] (p : PathTracer α) (x y : Int) :
    (p.TraceAt x y).2 = [p.Camera.RayThrough x y] := by
  simp [PathTracer.TraceAt]

/-- A counted Go loop runs its body at `i`, `i + 1`, … up to `hi - 1`. -/
theorem forLoop_eq_foldl {σ : Type} (body : Int → σ → σ) :
    ∀ (n : Nat) (i hi : Int) (s : σ), (hi - i).toNat = n →
      forLoop i hi body s = (List.range n).foldl (fun (s : σ) (k : Nat) => body (i + (k : Int)) s) s := by
  intro n
  induction n with
  | zero =>
    intro i hi s h
    rw [forLoop, if_neg (by omega)]
    rfl
  | succ n ih =>
    intro i hi s h
    rw [forLoop, if_pos (by omega), ih (i + 1) hi _ (by omega), List.range_succ_eq_map,
      List.foldl_cons, List.foldl_map]
    simp only [Nat.cast_zero, add_zero, Nat.cast_succ]
    congr 1
    funext s k
    congr 1
    ring

theorem foldl_setIntensityAt (c : Vec3 α) (x : Int) (l : List Nat) :
    ∀ b : Buffer α, l.foldl (fun (b : Buffer α) (k : Nat) => b.SetIntensityAt x (0 + (k : Int)) c) b
      = { b with writes := b.writes ++ l.map (fun (j : Nat) => (x, (j : Int), c)) } := by
  induction l with
  | nil => intro b; simp
  | cons a l ih =>
    intro b
    rw [List.foldl_cons, ih]
    simp [Buffer.SetIntensityAt]

theorem foldl_column (h : Int) (c : Vec3 α) (l : List Nat) :
    ∀ b : Buffer α,
      l.foldl (fun (b : Buffer α) (k : Nat) =>
        { b with writes := b.writes ++ column h c (0 + (k : Int)) }) b
      = { b with writes := b.writes ++ l.flatMap (fun (i : Nat) => column h c (i : Int)) } := by
  induction l with
  | nil => intro b; simp
  | cons a l ih =>
    intro b
    rw [List.foldl_cons, ih]
    simp

/-- What `Render` does to a buffer: it appends one black write per pixel. -/
theorem render_eq [LinearOrderedField α] (p : PathTracer α) (b : Buffer α) :
    p.Render b = { b with writes := b.writes ++ grid b.width b.height (NewVec3 0 0 0) } := by
  unfold PathTracer.Render Buffer.Dims
  simp only [traceAt_fst]
  rw [forLoop_eq_foldl _ _ 0 b.width b rfl]
  have hin : ∀ (x : Int) (b' : Buffer α),
      forLoop 0 b.height (fun y b => b.SetIntensityAt x y (NewVec3 0 0 0)) b'
        = { b' with writes := b'.writes ++ column b.height (NewVec3 0 0 0) x } := by
    intro x b'
    rw [forLoop_eq_foldl _ _ 0 b.height b' rfl, foldl_setIntensityAt]
    simp [column]
  simp only [hin]
  rw [foldl_column]
  simp [grid]

/-- The pixel coordinates of the grid. -/
theorem grid_coords (w h : Int) (c : Vec3 α) :
    (grid w h c).map (fun q => (q.1, q.2.1))
      = (List.range w.toNat).flatMap
          (fun (i : Nat) => (List.range h.toNat).map (fun (j : Nat) => ((i : Int), (j : Int)))) := by
  simp [grid, column, List.map_flatMap, Function.comp_def]

theorem mem_grid_coords (w h x y : Int) (c : Vec3 α) :
    (x, y) ∈ (grid w h c).map (fun q => (q.1, q.2.1))
      ↔ 0 ≤ x ∧ x < w ∧ 0 ≤ y ∧ y < h := by
  rw [grid_coords]
  simp only [List.mem_flatMap, List.mem_map, List.mem_range, Prod.mk.injEq]
  constructor
  · rintro ⟨i, hi, j, hj, rfl, rfl⟩
    omega
  · rintro ⟨hx, hxw, hy, hyh⟩
    exact ⟨x.toNat, by omega, y.toNat, by omega, by omega, by omega⟩

theorem nodup_grid_coords (w h : Int) (c : Vec3 α) :
    ((grid w h c).map (fun q => (q.1, q.2.1))).Nodup := by
  rw [grid_coords, List.nodup_flatMap]
  constructor
  · intro i _
    refine (List.nodup_range _).map ?_
    intro a b hab
    simpa using hab
  · refine (List.nodup_range w.toNat).imp ?_
    intro a b hab q hqa hqb
    simp only [List.mem_map, List.mem_range] at hqa hqb
    obtain ⟨j, _, rfl⟩ := hqa
    obtain ⟨k, _, hk⟩ := hqb
    simp only [Prod.mk.injEq, Nat.cast_inj] at hk
    exact hab hk.1.symm

theorem length_grid (w h : Int) (c : Vec3 α) :
    (grid w h c).length = w.toNat * h.toNat := by
  simp [grid, column, List.length_flatMap, Function.comp_def]

/-- The grid holds each pixel of the image once and nothing else. -/
theorem countP_grid (w h x y : Int) (c : Vec3 α) :
    (grid w h c).countP (fun q => decide (q.1 = x ∧ q.2.1 = y))
      = if 0 ≤ x ∧ x < w ∧ 0 ≤ y ∧ y < h then 1 else 0 := by
  have hc := @List.count_eq_of_nodup (Int × Int) inferInstance (x, y) _ (nodup_grid_coords w h c)
  simp only [mem_grid_coords] at hc
  rw [← hc]
  delta List.count
  rw [List.countP_map]
  congr 1
  funext q
  show decide (q.1 = x ∧ q.2.1 = y) = decide ((q.1, q.2.1) = (x, y))
  exact decide_eq_decide.mpr (by rw [Prod.mk.injEq])

/-- Every entry of the grid carries the colour `c`. -/
theorem color_of_mem_grid (w h : Int) (c : Vec3 α) (q : Int × Int × Vec3 α)
    (hq : q ∈ grid w h c) : q.2.2 = c := by
  simp only [grid, column, List.mem_flatMap, List.mem_map, List.mem_range] at hq
  obtain ⟨i, _, j, _, rfl⟩ := hq
  rfl

/-- In a list whose entries all carry the colour `c`, the colour of the first
entry satisfying `f` is `c` when there is such an entry. -/
theorem find_color (c : Vec3 α) (f : Int × Int × Vec3 α → Bool) :
    ∀ l : List (Int × Int × Vec3 α), (∀ q ∈ l, q.2.2 = c) →
      (l.find? f).map (fun q => q.2.2) = if l.any f then some c else none := by
  intro l
  induction l with
  | nil => intro _; rfl
  | cons a l ih =>
    intro h
    rw [List.find?_cons, List.any_cons]
    cases hfa : f a with
    | true => simp [h a (List.mem_cons_self a l)]
    | false =>
      simp only [Bool.false_or]
      exact ih (fun q hq => h q (List.mem_cons_of_mem a hq))

/-- The last write at `(x, y)` after a grid of colour `c` was appended. -/
theorem colorAt_append_grid (b : Buffer α) (c : Vec3 α) (x y : Int) :
    Buffer.colorAt { b with writes := b.writes ++ grid b.width b.height c } x y
      = if 0 ≤ x ∧ x < b.width ∧ 0 ≤ y ∧ y < b.height then some c else b.colorAt x y := by
  have hany : (grid b.width b.height c).reverse.any
      (fun q => decide (q.1 = x ∧ q.2.1 = y)) = true
        ↔ 0 ≤ x ∧ x < b.width ∧ 0 ≤ y ∧ y < b.height := by
    rw [← mem_grid_coords b.width b.height x y c]
    simp only [List.any_eq_true, List.mem_reverse, decide_eq_true_eq, List.mem_map,
      Prod.mk.injEq]
  have hfind := find_color c (fun q => decide (q.1 = x ∧ q.2.1 = y))
    (grid b.width b.height c).reverse
    (fun q hq => color_of_mem_grid _ _ c q (List.mem_reverse.mp hq))
  have hor : ∀ (o o' : Option (Int × Int × Vec3 α)),
      (o.or o').map (fun q => q.2.2) = ((o.map (fun q => q.2.2)).or (o'.map (fun q => q.2.2))) := by
    intro o o'
    cases o <;> rfl
  simp only [Buffer.colorAt, List.reverse_append, List.find?_append]
  rw [hor, hfind]
  by_cases hin : 0 ≤ x ∧ x < b.width ∧ 0 ≤ y ∧ y < b.height
  · rw [if_pos (hany.mpr hin), if_pos hin]
    rfl
  · rw [if_neg (fun h => hin (hany.mp h)), if_neg hin]
    rfl

end RenderLemmas

/-! ## Construction -/

section ConstructionLemmas

variable {α : Type} [LinearOrderedField α]

/-- `Normalize` fails on the zero vector. -/
theorem normalize_zero (sqrt : α → α) :
    (NewVec3 (0 : α) 0 0).Normalize sqrt = .error .DegenerateVectorError := by
  simp [Vec3.Normalize]

/-- `Normalize` succeeds on any other vector. -/
theorem normalize_of_ne (sqrt : α → α) (v : Vec3 α) (h : v ≠ NewVec3 0 0 0) :
    v.Normalize sqrt
      = .ok ⟨v.x / v.Length sqrt, v.y / v.Length sqrt, v.z / v.Length sqrt⟩ := by
  simp [Vec3.Normalize, h]

/-- `NewCamera` fails when the cross product of tangent and normal is zero. -/
theorem newCamera_of_collinear (sqrt : α → α) (position tangent normal : Vec3 α)
    (h : tangent.Cross normal = NewVec3 0 0 0) :
    NewCamera sqrt position tangent normal = .error .DegenerateVectorError := by
  simp only [NewCamera, h, normalize_zero]
  rfl

/-- `NewCamera` succeeds otherwise, and this is the camera it returns. -/
theorem newCamera_of_ne (sqrt : α → α) (position tangent normal : Vec3 α)
    (h : tangent.Cross normal ≠ NewVec3 0 0 0) :
    NewCamera sqrt position tangent normal
      = .ok
          { position := position
            tangent := tangent
            normal := normal
            binormal :=
              ⟨(tangent.Cross normal).x / (tangent.Cross normal).Length sqrt,
                (tangent.Cross normal).y / (tangent.Cross normal).Length sqrt,
                (tangent.Cross normal).z / (tangent.Cross normal).Length sqrt⟩
            aspectRatio := 1
            normHeight := 1 } := by
  simp only [NewCamera, normalize_of_ne sqrt _ h]
  rfl

/-- `NewPathTracer` succeeds when the scene bounds are ordered and the camera
is built, and this is the tracer it returns. -/
theorem newPathTracer_of_camera (sqrt : α → α) (config : Config α) (cam : Camera α)
    (hb : config.SceneBoundMin.e0 ≤ config.SceneBoundMax.e0
      ∧ config.SceneBoundMin.e1 ≤ config.SceneBoundMax.e1
      ∧ config.SceneBoundMin.e2 ≤ config.SceneBoundMax.e2)
    (hc : NewCamera sqrt config.EyeCenterUp.1 config.EyeCenterUp.2.1 config.EyeCenterUp.2.2
      = .ok cam) :
    NewPathTracer sqrt config
      = .ok
          { Config := config
            Scene := NewScene
              ⟨NewVec3 config.SceneBoundMin.e0 config.SceneBoundMin.e1 config.SceneBoundMin.e2,
                NewVec3 config.SceneBoundMax.e0 config.SceneBoundMax.e1 config.SceneBoundMax.e2⟩
            Camera := cam } := by
  have hbox : config.SceneBound
      = .ok ⟨NewVec3 config.SceneBoundMin.e0 config.SceneBoundMin.e1 config.SceneBoundMin.e2,
          NewVec3 config.SceneBoundMax.e0 config.SceneBoundMax.e1 config.SceneBoundMax.e2⟩ := by
    simp only [Config.SceneBound, NewBoundBox, NewVec3]
    rw [if_pos hb]
  simp only [NewPathTracer, hbox]
  show (do
    let camera ← NewCamera sqrt config.EyeCenterUp.1 config.EyeCenterUp.2.1
      config.EyeCenterUp.2.2
    pure _) = _
  rw [hc]
  rfl

/-- `NewPathTracer` fails when `NewCamera` fails on the center and the up
vector of the configuration. -/
theorem newPathTracer_of_collinear (sqrt : α → α) (config : Config α)
    (h : config.EyeCenterUp.2.1.Cross config.EyeCenterUp.2.2 = NewVec3 0 0 0) :
    ∃ e, NewPathTracer sqrt config = .error e := by
  have hc := newCamera_of_collinear sqrt config.EyeCenterUp.1 _ _ h
  simp only [NewPathTracer]
  cases hbox : config.SceneBound with
  | error e => exact ⟨e, rfl⟩
  | ok bb =>
    refine ⟨.DegenerateVectorError, ?_⟩
    show (do
      let camera ← NewCamera sqrt config.EyeCenterUp.1 config.EyeCenterUp.2.1
        config.EyeCenterUp.2.2
      pure _) = _
    rw [hc]
    rfl

/-- Over the reals `NewCamera` builds `lookDownZ` from the default eye, center
and up. -/
theorem newCamera_lookDownZ :
    NewCamera Real.sqrt (NewVec3 0 0 0) (NewVec3 0 0 (-1)) (NewVec3 0 1 0)
      = .ok (lookDownZ : Camera ℝ) := by
  rw [newCamera_of_ne _ _ _ _ (by simp [NewVec3, Vec3.Cross])]
  simp [lookDownZ, NewVec3, Vec3.Cross, Vec3.Length, Vec3.Dot]

/-- Over the reals `NewPathTracer` builds, from a default configuration, the
tracer with the default scene and the camera `lookDownZ`. -/
theorem newPathTracer_default (numCPU unixNano : Int) :
    NewPathTracer Real.sqrt (NewDefaultConfig numCPU unixNano)
      = .ok ⟨NewDefaultConfig numCPU unixNano, defaultScene, lookDownZ⟩ := by
  rw [newPathTracer_of_camera Real.sqrt (NewDefaultConfig numCPU unixNano) lookDownZ
    (by simp only [NewDefaultConfig]; norm_num) newCamera_lookDownZ]
  rfl

end ConstructionLemmas

/-! ## Claims about `Render` and `TraceAt` -/

section RenderClaims

variable {α : Type} [LinearOrderedField α]

/-- C1: `Render` calls `SetIntensityAt` exactly once for each pixel `(x, y)`
with `0 ≤ x < width` and `0 ≤ y < height` and never for another coordinate: in
the record of calls the count of `(x, y)` grows by one inside the image and by
zero outside, the number of calls is `width * height`, and the buffer is left
as it was exactly when `width ≤ 0` or `height ≤ 0`. -/
theorem render_sets_each_pixel_once (p : PathTracer α) (b : Buffer α) (x y : Int) :
    (p.Render b).callsAt x y
        = b.callsAt x y
          + (if 0 ≤ x ∧ x < b.width ∧ 0 ≤ y ∧ y < b.height then 1 else 0)
    ∧ (p.Render b).writes.length = b.writes.length + b.width.toNat * b.height.toNat
    ∧ (p.Render b = b ↔ (b.width ≤ 0 ∨ b.height ≤ 0)) := by
  rw [render_eq]
  refine ⟨?_, ?_, ?_⟩
  · simp only [Buffer.callsAt, List.countP_append, countP_grid]
  · simp [length_grid]
  · have hlen := length_grid b.width b.height (NewVec3 (0 : α) 0 0)
    constructor
    · intro h
      have hw : b.writes ++ grid b.width b.height (NewVec3 0 0 0) = b.writes :=
        congrArg Buffer.writes h
      have h0 : (grid b.width b.height (NewVec3 (0 : α) 0 0)).length = 0 := by
        have := congrArg List.length hw
        simp only [List.length_append] at this
        omega
      rw [hlen] at h0
      rcases Nat.mul_eq_zero.mp h0 with h1 | h1 <;> omega
    · intro h
      have h0 : (grid b.width b.height (NewVec3 (0 : α) 0 0)).length = 0 := by
        rw [hlen]
        rcases h with h | h
        · rw [Int.toNat_of_nonpos h, Nat.zero_mul]
        · rw [Int.toNat_of_nonpos h, Nat.mul_zero]
      rw [List.length_eq_zero.mp h0, List.append_nil]

/-- A scene that owns no object reports no hit, whatever the ray. -/
theorem intersect_of_no_objects (s : Scene α) (h : s.objects = []) (r : Ray α) :
    (s.Intersect r).isSome = false := by
  simp [Scene.Intersect, h]

/-- C2: for a scene with zero objects `Scene.Intersect` reports no hit for
every ray, `TraceAt` returns exactly the black vector `(0, 0, 0)` for every
configuration and pixel, and after `Render` every pixel of the image holds
exactly that value (a coordinate outside the image keeps what it had). -/
theorem traceAt_empty_scene (p : PathTracer α) (h : p.Scene.objects = [])
    (b : Buffer α) (x y : Int) :
    (∀ r, (p.Scene.Intersect r).isSome = false)
    ∧ (p.TraceAt x y).1 = NewVec3 0 0 0
    ∧ (p.Render b).colorAt x y
        = (if 0 ≤ x ∧ x < b.width ∧ 0 ≤ y ∧ y < b.height then some (NewVec3 0 0 0)
           else b.colorAt x y)
    ∧ (∀ q ∈ (p.Render b).writes.drop b.writes.length, q.2.2 = NewVec3 0 0 0) := by
  refine ⟨intersect_of_no_objects p.Scene h, traceAt_fst p x y, ?_, ?_⟩
  · rw [render_eq, colorAt_append_grid]
  · rw [render_eq]
    intro q hq
    rw [List.drop_left] at hq
    exact color_of_mem_grid _ _ _ q hq

/-- C3: two runs of `Render` on the same scene, camera and buffer, with
configurations that agree on every field (the seed among them) except
possibly `NumCPU`, produce identical output buffers. -/
theorem render_independent_of_numCPU (s : Scene α) (cam : Camera α) (c₁ c₂ : Config α)
    (b : Buffer α) (h : { c₁ with NumCPU := c₂.NumCPU } = c₂) :
    c₁.Seed = c₂.Seed
    ∧ PathTracer.Render ⟨c₁, s, cam⟩ b = PathTracer.Render ⟨c₂, s, cam⟩ b
    ∧ (∀ x y, (PathTracer.Render ⟨c₁, s, cam⟩ b).colorAt x y
        = (PathTracer.Render ⟨c₂, s, cam⟩ b).colorAt x y) := by
  refine ⟨?_, ?_, ?_⟩
  · rw [← h]
  · rw [render_eq, render_eq]
  · intro x y
    rw [render_eq, render_eq]

/-- C8, as the code has it: `TraceAt` never reads `Config.TraceDepth`; for
every configuration and pixel it calls `Scene.Intersect` exactly once, on the
camera ray, and returns black. -/
theorem traceAt_intersects_once (p : PathTracer α) (x y : Int) :
    (p.TraceAt x y).2 = [p.Camera.RayThrough x y]
    ∧ (p.TraceAt x y).2.length = 1
    ∧ (p.TraceAt x y).1 = NewVec3 0 0 0 := by
  refine ⟨traceAt_snd p x y, ?_, traceAt_fst p x y⟩
  rw [traceAt_snd]
  rfl

/-- C10: the colour `TraceAt` returns does not depend on the scene: with a
scene `s₁` whose `Intersect` reports a hit for the camera ray and a scene `s₂`
where it reports none, `TraceAt` returns `(0, 0, 0)` for both, and the image
rendered into a fresh buffer is black at each of its pixels for both. -/
theorem traceAt_independent_of_scene (cfg : Config α) (cam : Camera α) (s₁ s₂ : Scene α)
    (x y : Int)
    (hhit : (s₁.Intersect (cam.RayThrough x y)).isSome = true)
    (hmiss : (s₂.Intersect (cam.RayThrough x y)).isSome = false) :
    (PathTracer.TraceAt ⟨cfg, s₁, cam⟩ x y).1 = NewVec3 0 0 0
    ∧ (PathTracer.TraceAt ⟨cfg, s₂, cam⟩ x y).1 = NewVec3 0 0 0
    ∧ (∀ w h u v : Int, (PathTracer.Render ⟨cfg, s₁, cam⟩ (NewBuffer w h)).colorAt u v
        = (if 0 ≤ u ∧ u < w ∧ 0 ≤ v ∧ v < h then some (NewVec3 0 0 0) else none))
    ∧ (∀ w h u v : Int, (PathTracer.Render ⟨cfg, s₂, cam⟩ (NewBuffer w h)).colorAt u v
        = (if 0 ≤ u ∧ u < w ∧ 0 ≤ v ∧ v < h then some (NewVec3 0 0 0) else none)) := by
  have _ := hhit
  have _ := hmiss
  refine ⟨traceAt_fst _ x y, traceAt_fst _ x y, ?_, ?_⟩
  · intro w h u v
    rw [render_eq, colorAt_append_grid]
    rfl
  · intro w h u v
    rw [render_eq, colorAt_append_grid]
    rfl

/-- C2 at the tracer `NewPathTracer` builds from the default configuration,
whose scene is empty, and a fresh 2 by 2 buffer: pixel `(1, 1)` is traced and
rendered black. -/
theorem traceAt_empty_scene_witness :
    NewPathTracer Real.sqrt (NewDefaultConfig 4 0) = .ok defaultTracer
    ∧ (defaultTracer : PathTracer ℝ).Scene.objects = []
    ∧ ((defaultTracer : PathTracer ℝ).TraceAt 1 1).1 = NewVec3 0 0 0
    ∧ ((defaultTracer : PathTracer ℝ).Render (NewBuffer 2 2)).colorAt 1 1
        = some (NewVec3 0 0 0) :=
  ⟨newPathTracer_default 4 0, rfl,
    (traceAt_empty_scene (defaultTracer : PathTracer ℝ) rfl (NewBuffer 2 2) 1 1).2.1,
    by
      have h := (traceAt_empty_scene (defaultTracer : PathTracer ℝ) rfl
        (NewBuffer 2 2) 1 1).2.2.1
      rw [h]
      simp [NewBuffer]⟩

/-- C3 at the default configuration with 1 and with 8 workers, on a scene
with one object and a fresh 2 by 2 buffer. -/
theorem render_independent_of_numCPU_witness :
    { (NewDefaultConfig 1 0 : Config ℝ) with NumCPU := (NewDefaultConfig 8 0 : Config ℝ).NumCPU }
        = NewDefaultConfig 8 0
    ∧ PathTracer.Render ⟨(NewDefaultConfig 1 0 : Config ℝ), hitScene, lookDownZ⟩ (NewBuffer 2 2)
      = PathTracer.Render ⟨NewDefaultConfig 8 0, hitScene, lookDownZ⟩ (NewBuffer 2 2) :=
  ⟨rfl,
    (render_independent_of_numCPU hitScene lookDownZ (NewDefaultConfig 1 0)
      (NewDefaultConfig 8 0) (NewBuffer 2 2) rfl).2.1⟩

/-- C8 as stated fails: with `TraceDepth = 0` tracing pixel `(0, 0)` calls
`Scene.Intersect` once, not zero times. -/
theorem traceAt_depth_zero_queries_scene :
    ∃ p : PathTracer ℝ, NewPathTracer Real.sqrt depthZeroConfig = .ok p
      ∧ p.Config.TraceDepth = 0
      ∧ (p.TraceAt 0 0).2.length = 1 :=
  ⟨⟨depthZeroConfig, defaultScene, lookDownZ⟩,
    by
      rw [newPathTracer_of_camera Real.sqrt depthZeroConfig lookDownZ
        (by simp only [depthZeroConfig, NewDefaultConfig]; norm_num) newCamera_lookDownZ]
      rfl,
    rfl, by rw [traceAt_snd]; rfl⟩

/-- C10 at pixel `(0, 0)`: `hitScene` reports a hit for the camera ray, the
empty scene reports none, and `TraceAt` returns the same colour for both. -/
theorem traceAt_independent_of_scene_witness :
    ((hitScene : Scene ℝ).Intersect ((lookDownZ : Camera ℝ).RayThrough 0 0)).isSome = true
    ∧ ((defaultScene : Scene ℝ).Intersect ((lookDownZ : Camera ℝ).RayThrough 0 0)).isSome
        = false
    ∧ (PathTracer.TraceAt ⟨(NewDefaultConfig 1 0 : Config ℝ), hitScene, lookDownZ⟩ 0 0).1
      = (PathTracer.TraceAt ⟨NewDefaultConfig 1 0, defaultScene, lookDownZ⟩ 0 0).1 := by
  have hhit : ((hitScene : Scene ℝ).Intersect
      ((lookDownZ : Camera ℝ).RayThrough 0 0)).isSome = true := by
    simp only [hitScene, defaultScene, Scene.AddObject, NewScene, Scene.Intersect,
      List.nil_append, List.foldl_cons, List.foldl_nil, Scene.nearer, alwaysHit, epsilon]
    rw [if_pos (by norm_num)]
    rfl
  have h := traceAt_independent_of_scene (NewDefaultConfig 1 0) (lookDownZ : Camera ℝ)
    hitScene defaultScene 0 0 hhit rfl
  exact ⟨hhit, rfl, h.1.trans h.2.1.symm⟩

end RenderClaims

/-! ## Claims about the camera and the configuration -/

section CameraClaims

/-- The cross product is orthogonal to its first factor. -/
theorem dot_cross_left {α : Type} [LinearOrderedField α] (v w : Vec3 α) :
    (v.Cross w).Dot v = 0 := by
  simp only [Vec3.Cross, Vec3.Dot]
  ring

/-- The cross product is orthogonal to its second factor. -/
theorem dot_cross_right {α : Type} [LinearOrderedField α] (v w : Vec3 α) :
    (v.Cross w).Dot w = 0 := by
  simp only [Vec3.Cross, Vec3.Dot]
  ring

/-- A vector other than the zero vector has a positive squared length. -/
theorem dot_self_pos {α : Type} [LinearOrderedField α] (v : Vec3 α)
    (h : v ≠ NewVec3 0 0 0) : 0 < v.Dot v := by
  by_contra hn
  apply h
  have hx := mul_self_nonneg v.x
  have hy := mul_self_nonneg v.y
  have hz := mul_self_nonneg v.z
  simp only [Vec3.Dot, not_lt] at hn
  have hx0 : v.x = 0 := mul_self_eq_zero.mp (by linarith)
  have hy0 : v.y = 0 := mul_self_eq_zero.mp (by linarith)
  have hz0 : v.z = 0 := mul_self_eq_zero.mp (by linarith)
  cases v
  simp only [NewVec3, Vec3.mk.injEq]
  exact ⟨hx0, hy0, hz0⟩

/-- Over the reals, normalising a non-zero vector gives a unit vector. -/
theorem normalize_dot_self (v : Vec3 ℝ) (h : v ≠ NewVec3 0 0 0) :
    Vec3.Dot
      ⟨v.x / v.Length Real.sqrt, v.y / v.Length Real.sqrt, v.z / v.Length Real.sqrt⟩
      ⟨v.x / v.Length Real.sqrt, v.y / v.Length Real.sqrt, v.z / v.Length Real.sqrt⟩
      = 1 := by
  have hpos := dot_self_pos v h
  have hm : Real.sqrt (v.Dot v) ≠ 0 := (Real.sqrt_pos.mpr hpos).ne'
  have hsq : Real.sqrt (v.Dot v) * Real.sqrt (v.Dot v) = v.Dot v :=
    Real.mul_self_sqrt hpos.le
  simp only [Vec3.Length, Vec3.Dot] at hm hsq ⊢
  field_simp
  linarith

/-- Normalising keeps orthogonality. -/
theorem normalize_dot (v w : Vec3 ℝ) (h : v.Dot w = 0) :
    Vec3.Dot
      ⟨v.x / v.Length Real.sqrt, v.y / v.Length Real.sqrt, v.z / v.Length Real.sqrt⟩ w
      = 0 := by
  simp only [Vec3.Length, Vec3.Dot] at h ⊢
  rw [div_mul_eq_mul_div, div_mul_eq_mul_div, div_mul_eq_mul_div, ← add_div, ← add_div, h,
    zero_div]

/-- C4 at the camera placed at `(1, 2, 3)` looking down `-z`, pixel `(0, 0)`:
`NewCamera` builds the camera, and `RayThrough` returns the ray with origin
`(0, 0, 0)`, which is not the camera's position, and direction `(0, 0, 0)`, of
squared length 0 and so not a unit vector. -/
theorem rayThrough_returns_zero_ray :
    ∃ c : Camera ℝ,
      NewCamera Real.sqrt (NewVec3 1 2 3) (NewVec3 0 0 (-1)) (NewVec3 0 1 0) = .ok c
      ∧ c.Position = NewVec3 1 2 3
      ∧ (c.RayThrough 0 0).origin = NewVec3 0 0 0
      ∧ (c.RayThrough 0 0).origin ≠ c.Position
      ∧ (c.RayThrough 0 0).direction = NewVec3 0 0 0
      ∧ Vec3.Dot (c.RayThrough 0 0).direction (c.RayThrough 0 0).direction ≠ 1 := by
  refine ⟨_, newCamera_of_ne _ _ _ _ (by simp [NewVec3, Vec3.Cross]), rfl, rfl, ?_, rfl, ?_⟩
  · simp [Camera.RayThrough, NewRay, NewVec3, Camera.Position]
  · simp [Camera.RayThrough, NewRay, NewVec3, Vec3.Dot]

/-- C5 as stated fails: for the non-zero, non-collinear pair tangent
`(2, 0, 0)`, normal `(0, 1, 0)` `NewCamera` returns a camera, and the tangent
reported by its `BasisVecs` has squared length 4, not 1. -/
theorem newCamera_tangent_not_unit :
    NewVec3 (2 : ℝ) 0 0 ≠ NewVec3 0 0 0
    ∧ NewVec3 (0 : ℝ) 1 0 ≠ NewVec3 0 0 0
    ∧ Vec3.Cross (NewVec3 (2 : ℝ) 0 0) (NewVec3 0 1 0) ≠ NewVec3 0 0 0
    ∧ ∃ c : Camera ℝ,
        NewCamera Real.sqrt (NewVec3 0 0 0) (NewVec3 2 0 0) (NewVec3 0 1 0) = .ok c
        ∧ Vec3.Dot c.BasisVecs.1 c.BasisVecs.1 = 4
        ∧ Vec3.Dot c.BasisVecs.1 c.BasisVecs.1 ≠ 1 := by
  refine ⟨?_, ?_, ?_, _, newCamera_of_ne _ _ _ _ ?_, ?_, ?_⟩
  · simp [NewVec3]
  · simp [NewVec3]
  · simp [NewVec3, Vec3.Cross]
  · simp [NewVec3, Vec3.Cross]
  · simp only [Camera.BasisVecs, NewVec3, Vec3.Dot]
    norm_num
  · simp only [Camera.BasisVecs, NewVec3, Vec3.Dot]
    norm_num

/-- C5, as the code has it, over the reals: for every position and every
non-collinear tangent and normal, `NewCamera` returns a camera whose
`BasisVecs` reports the tangent and the normal exactly as they were given, and
a binormal that is the normalised cross product tangent × normal, of unit
length and orthogonal to both the tangent and the normal. -/
theorem newCamera_basis (position tangent normal : Vec3 ℝ)
    (h : tangent.Cross normal ≠ NewVec3 0 0 0) :
    ∃ c : Camera ℝ,
      NewCamera Real.sqrt position tangent normal = .ok c
      ∧ c.BasisVecs.1 = tangent
      ∧ c.BasisVecs.2.1 = normal
      ∧ (tangent.Cross normal).Normalize Real.sqrt = .ok c.BasisVecs.2.2
      ∧ c.BasisVecs.2.2
          = Vec3.Scale (1 / Real.sqrt ((tangent.Cross normal).Dot (tangent.Cross normal)))
              (tangent.Cross normal)
      ∧ Vec3.Dot c.BasisVecs.2.2 c.BasisVecs.2.2 = 1
      ∧ Vec3.Dot c.BasisVecs.2.2 tangent = 0
      ∧ Vec3.Dot c.BasisVecs.2.2 normal = 0 := by
  refine ⟨_, newCamera_of_ne _ _ _ _ h, rfl, rfl, normalize_of_ne _ _ h, ?_,
    normalize_dot_self _ h, normalize_dot _ _ (dot_cross_left _ _),
    normalize_dot _ _ (dot_cross_right _ _)⟩
  simp only [Camera.BasisVecs, Vec3.Length, Vec3.Scale, Vec3.mk.injEq]
  refine ⟨?_, ?_, ?_⟩ <;> rw [one_div, div_eq_inv_mul]

/-- C5 at the default camera, tangent `(0, 0, -1)` and normal `(0, 1, 0)`:
a camera is returned and its binormal has unit length. -/
theorem newCamera_basis_witness :
    Vec3.Cross (NewVec3 (0 : ℝ) 0 (-1)) (NewVec3 0 1 0) ≠ NewVec3 0 0 0
    ∧ ∃ c : Camera ℝ,
        NewCamera Real.sqrt (NewVec3 0 0 0) (NewVec3 0 0 (-1)) (NewVec3 0 1 0) = .ok c
        ∧ Vec3.Dot c.BasisVecs.2.2 c.BasisVecs.2.2 = 1 := by
  have hne : Vec3.Cross (NewVec3 (0 : ℝ) 0 (-1)) (NewVec3 0 1 0) ≠ NewVec3 0 0 0 := by
    simp [NewVec3, Vec3.Cross]
  obtain ⟨c, hc, _, _, _, _, hunit, _, _⟩ :=
    newCamera_basis (NewVec3 0 0 0) (NewVec3 0 0 (-1)) (NewVec3 0 1 0) hne
  exact ⟨hne, c, hc, hunit⟩

/-- C6: `NewCamera` fails with a validation error for every collinear tangent
and normal, and `NewPathTracer` fails whenever the up vector is collinear with
the center; but it hands `NewCamera` the center, not center − eye.  At eye
`(1, 0, 0)`, center `(1, 1, 0)`, up `(0, 1, 0)` the up vector is along the look
direction center − eye `(0, 1, 0)` and `NewPathTracer` still returns a tracer,
with tangent `(1, 1, 0)`. -/
theorem newPathTracer_accepts_up_along_look (α : Type) [LinearOrderedField α]
    (sqrt : α → α) :
    (∀ position tangent normal : Vec3 α, tangent.Cross normal = NewVec3 0 0 0 →
        NewCamera sqrt position tangent normal = .error .DegenerateVectorError)
    ∧ (∀ config : Config α,
        config.EyeCenterUp.2.1.Cross config.EyeCenterUp.2.2 = NewVec3 0 0 0 →
        ∃ e, NewPathTracer sqrt config = .error e)
    ∧ (upAlongLookConfig : Config α).CameraEye ≠ (upAlongLookConfig : Config α).CameraCenter
    ∧ Vec3.Sub (upAlongLookConfig : Config α).EyeCenterUp.2.1
        (upAlongLookConfig : Config α).EyeCenterUp.1 = NewVec3 0 1 0
    ∧ Vec3.Cross (upAlongLookConfig : Config α).EyeCenterUp.2.2
        (Vec3.Sub (upAlongLookConfig : Config α).EyeCenterUp.2.1
          (upAlongLookConfig : Config α).EyeCenterUp.1) = NewVec3 0 0 0
    ∧ ∃ p : PathTracer α, NewPathTracer sqrt upAlongLookConfig = .ok p
        ∧ p.Camera.Position = NewVec3 1 0 0
        ∧ p.Camera.BasisVecs.1 = NewVec3 1 1 0
        ∧ p.Camera.BasisVecs.2.1 = NewVec3 0 1 0 := by
  refine ⟨newCamera_of_collinear sqrt, newPathTracer_of_collinear sqrt, ?_, ?_, ?_, ?_⟩
  · simp [upAlongLookConfig, NewDefaultConfig]
  · simp [upAlongLookConfig, NewDefaultConfig, Config.EyeCenterUp, NewVec3, Vec3.Sub]
  · simp [upAlongLookConfig, NewDefaultConfig, Config.EyeCenterUp, NewVec3, Vec3.Sub,
      Vec3.Cross]
  · refine ⟨_, newPathTracer_of_camera sqrt _ _ ?_ (newCamera_of_ne sqrt _ _ _ ?_),
      rfl, rfl, rfl⟩
    · simp only [upAlongLookConfig, NewDefaultConfig]
      norm_num
    · simp [upAlongLookConfig, NewDefaultConfig, Config.EyeCenterUp, NewVec3, Vec3.Cross]

/-- C7 at the configuration with eye `(1, 0, 0)`, center `(0, 0, -1)` and up
`(0, 1, 0)`: `NewPathTracer` returns a tracer whose camera has its position at
the eye and its normal equal to the up vector, but its tangent is the center
`(0, 0, -1)` itself, which is no multiple of center − eye `(-1, 0, -1)`. -/
theorem newPathTracer_tangent_is_center :
    (eyeOffConfig : Config ℝ).CameraEye ≠ (eyeOffConfig : Config ℝ).CameraCenter
    ∧ Vec3.Sub (eyeOffConfig : Config ℝ).EyeCenterUp.2.1 (eyeOffConfig : Config ℝ).EyeCenterUp.1
        = NewVec3 (-1) 0 (-1)
    ∧ ∃ p : PathTracer ℝ, NewPathTracer Real.sqrt eyeOffConfig = .ok p
        ∧ p.Camera.Position = NewVec3 1 0 0
        ∧ p.Camera.BasisVecs.2.1 = NewVec3 0 1 0
        ∧ p.Camera.BasisVecs.1 = NewVec3 0 0 (-1)
        ∧ (∀ k : ℝ, Vec3.Scale k (Vec3.Sub (eyeOffConfig : Config ℝ).EyeCenterUp.2.1
              (eyeOffConfig : Config ℝ).EyeCenterUp.1)
            ≠ p.Camera.BasisVecs.1) := by
  refine ⟨?_, ?_, _, newPathTracer_of_camera Real.sqrt _ _ ?_
    (newCamera_of_ne Real.sqrt _ _ _ ?_), rfl, rfl, rfl, ?_⟩
  · simp [eyeOffConfig, NewDefaultConfig]
  · simp [eyeOffConfig, NewDefaultConfig, Config.EyeCenterUp, NewVec3, Vec3.Sub]
  · simp only [eyeOffConfig, NewDefaultConfig]
    norm_num
  · simp [eyeOffConfig, NewDefaultConfig, Config.EyeCenterUp, NewVec3, Vec3.Cross]
  · intro k hk
    simp only [eyeOffConfig, NewDefaultConfig, Config.EyeCenterUp, NewVec3, Vec3.Sub,
      Vec3.Scale, Camera.BasisVecs, Vec3.mk.injEq] at hk
    obtain ⟨h1, _, h3⟩ := hk
    norm_num at h1 h3
    rw [h1] at h3
    norm_num at h3

/-- C9: the configuration returned by `NewDefaultConfig` is a valid input:
positive width and height, scene bound min ≤ max on every axis, eye different
from center, up not parallel to center − eye (non-zero cross product), both
sample sizes at least 1 and a non-negative trace depth. -/
theorem newDefaultConfig_valid (α : Type) [LinearOrderedField α] (numCPU unixNano : Int) :
    0 < (NewDefaultConfig numCPU unixNano : Config α).Width
    ∧ 0 < (NewDefaultConfig numCPU unixNano : Config α).Height
    ∧ (NewDefaultConfig numCPU unixNano : Config α).SceneBoundMin.e0
        ≤ (NewDefaultConfig numCPU unixNano : Config α).SceneBoundMax.e0
    ∧ (NewDefaultConfig numCPU unixNano : Config α).SceneBoundMin.e1
        ≤ (NewDefaultConfig numCPU unixNano : Config α).SceneBoundMax.e1
    ∧ (NewDefaultConfig numCPU unixNano : Config α).SceneBoundMin.e2
        ≤ (NewDefaultConfig numCPU unixNano : Config α).SceneBoundMax.e2
    ∧ (NewDefaultConfig numCPU unixNano : Config α).CameraEye
        ≠ (NewDefaultConfig numCPU unixNano : Config α).CameraCenter
    ∧ Vec3.Cross (NewDefaultConfig numCPU unixNano : Config α).EyeCenterUp.2.2
        (Vec3.Sub (NewDefaultConfig numCPU unixNano : Config α).EyeCenterUp.2.1
          (NewDefaultConfig numCPU unixNano : Config α).EyeCenterUp.1) ≠ NewVec3 0 0 0
    ∧ 1 ≤ (NewDefaultConfig numCPU unixNano : Config α).PixelSampleSize
    ∧ 1 ≤ (NewDefaultConfig numCPU unixNano : Config α).IntersectSampleSize
    ∧ 0 ≤ (NewDefaultConfig numCPU unixNano : Config α).TraceDepth := by
  have hint : ∀ a b : Int, decide (a < b) = true → a < b := fun _ _ => of_decide_eq_true
  have hle : ∀ a b : Int, decide (a ≤ b) = true → a ≤ b := fun _ _ => of_decide_eq_true
  refine ⟨hint _ _ rfl, hint _ _ rfl, ?_, ?_, ?_, ?_, ?_, hle _ _ rfl, hle _ _ rfl,
    hle _ _ rfl⟩
  · simp only [NewDefaultConfig]; norm_num
  · simp only [NewDefaultConfig]; norm_num
  · simp only [NewDefaultConfig]; norm_num
  · simp [NewDefaultConfig]
  · simp [NewDefaultConfig, Config.EyeCenterUp, NewVec3, Vec3.Sub, Vec3.Cross]

end CameraClaims

end Phoebe
